import Mathlib

/-!
# Verification of the glabs-rust-libraries security core

Shallow embedding of the cipher layer (`src/ciphers.rs`), the token
issuance/validation layer (`src/paseto.rs`), the bearer-token extraction
(`src/strings.rs`) and the request-authorization guard
(`src/guards/middlewares.rs`).

Modelling conventions:
* Rust byte strings (`Vec<u8>`, and `String`s that flow into the cipher
  layer) are `List Nat` with every element `< 256`;
  `String::from_utf8_lossy` applied to bytes that came from a valid UTF-8
  `String` is the identity, so round trips are stated on the byte lists.
* Rust `String`s at the guard/paseto boundary are Lean `String`s, with
  `split`/`trim`/`contains`/`to_lowercase` re-implemented over `.data`
  to mirror the Rust semantics used by the source.
* Fallible Rust code returns `RResult`; a reachable `unwrap()` of a `None`
  or `Err` value is embedded as the explicit outcome `RResult.panic`
  (resp. `GuardOutcome.panic` in the guard).
* The external `xsalsa20poly1305` crate is embedded as an idealized AEAD
  over explicit nonces: tag-prefixed keystream-xor ciphertext, the tag a
  function of key, nonce and ciphertext, 16 bytes of authentication
  overhead and a 24-byte nonce exactly as the crate has. Random nonce
  generation (`OsRng`) is externalized: encryption operations take the
  generated nonce as an argument.
* The `base64_url` crate (URL-safe alphabet, no padding, permissive about
  trailing bits, rejecting length ≡ 1 mod 4) is embedded concretely as
  `b64Encode`/`b64Decode`.
-/

namespace Glabs

/-! ## Rust string primitives (src/strings.rs helpers and std methods) -/

/-- Whitespace test used by `str::trim` (ASCII fragment). -/
def isWsp (c : Char) : Bool :=
  c = ' ' || c = '\t' || c = '\n' || c = '\r'

/-- Both-ends whitespace trim on a character list. -/
def trimList (l : List Char) : List Char :=
  ((l.dropWhile isWsp).reverse.dropWhile isWsp).reverse

/-- Model of Rust `str::trim`. -/
def rustTrim (s : String) : String :=
  String.mk (trimList s.data)

/-- Matching test: does `pat` start the given list? -/
def isPre : List Char → List Char → Bool
  | [], _ => true
  | _ :: _, [] => false
  | a :: as, b :: bs => a = b && isPre as bs

/-- Model of Rust `str::contains` for a substring pattern (case-sensitive). -/
def containsSub (pat : List Char) : List Char → Bool
  | [] => isPre pat []
  | c :: rest => isPre pat (c :: rest) || containsSub pat rest

/-- String wrapper for `containsSub`. -/
def rustContains (s pat : String) : Bool :=
  containsSub pat.data s.data

/-- Splitter behind Rust `str::split` with a nonempty substring pattern:
fuel-indexed so evaluation is structural; `fuel ≥ s.length` reproduces the
Rust semantics (each step consumes at least one character). -/
def splitGo (pat : List Char) : Nat → List Char → List Char → List (List Char)
  | _, [], acc => [acc.reverse]
  | 0, s, acc => [acc.reverse ++ s]
  | fuel + 1, c :: rest, acc =>
    if isPre pat (c :: rest) then
      acc.reverse :: splitGo pat fuel (List.drop pat.length (c :: rest)) []
    else
      splitGo pat fuel rest (c :: acc)

/-- Model of Rust `str::split(pat)` collected into a vector. -/
def rustSplit (pat s : String) : List String :=
  (splitGo pat.data s.data.length s.data []).map String.mk

/-- ASCII lowercase of one character, the fragment of Rust
`str::to_lowercase` exercised by the source's error messages. -/
def lowerChar (c : Char) : Char :=
  if 'A' ≤ c ∧ c ≤ 'Z' then Char.ofNat (c.toNat + 32) else c

/-- Model of Rust `str::to_lowercase` (ASCII fragment). -/
def rustToLower (s : String) : String :=
  String.mk (s.data.map lowerChar)

/-- Translation of `strings::get_token` (src/strings.rs lines 154-167):
split on `"Bearer"`, demand exactly two parts, return the trimmed second. -/
def get_token (value : String) : Option String :=
  if value = "" then none
  else
    match rustSplit "Bearer" value with
    | [_, t] => some (rustTrim t)
    | _ => none

/-! ## base64url (external crate `base64_url`: URL-safe alphabet, no padding) -/

/-- Sextet to URL-safe alphabet ASCII code. -/
def encTable (n : Nat) : Nat :=
  if n < 26 then 65 + n
  else if n < 52 then 97 + (n - 26)
  else if n < 62 then 48 + (n - 52)
  else if n = 62 then 45
  else 95

/-- ASCII code back to sextet; `none` off the alphabet. -/
def decTable (c : Nat) : Option Nat :=
  if 65 ≤ c ∧ c ≤ 90 then some (c - 65)
  else if 97 ≤ c ∧ c ≤ 122 then some (26 + (c - 97))
  else if 48 ≤ c ∧ c ≤ 57 then some (52 + (c - 48))
  else if c = 45 then some 62
  else if c = 95 then some 63
  else none

/-- Unpadded base64url encoding of a byte list, as ASCII codes. -/
def b64Encode : List Nat → List Nat
  | [] => []
  | [a] => [encTable (a / 4), encTable (a % 4 * 16)]
  | [a, b] => [encTable (a / 4), encTable (a % 4 * 16 + b / 16), encTable (b % 16 * 4)]
  | a :: b :: c :: rest =>
    encTable (a / 4) :: encTable (a % 4 * 16 + b / 16) ::
      encTable (b % 16 * 4 + c / 64) :: encTable (c % 64) :: b64Encode rest

/-- Unpadded base64url decoding; rejects off-alphabet characters and
lengths ≡ 1 mod 4, ignores trailing bits (as `base64` 0.13 does). -/
def b64Decode : List Nat → Option (List Nat)
  | [] => some []
  | [_] => none
  | [w, x] =>
    match decTable w, decTable x with
    | some s1, some s2 => some [s1 * 4 + s2 / 16]
    | _, _ => none
  | [w, x, y] =>
    match decTable w, decTable x, decTable y with
    | some s1, some s2, some s3 => some [s1 * 4 + s2 / 16, s2 % 16 * 16 + s3 / 4]
    | _, _, _ => none
  | w :: x :: y :: z :: rest =>
    match decTable w, decTable x, decTable y, decTable z, b64Decode rest with
    | some s1, some s2, some s3, some s4, some bs =>
      some ((s1 * 4 + s2 / 16) :: (s2 % 16 * 16 + s3 / 4) :: (s3 % 4 * 64 + s4) :: bs)
    | _, _, _, _, _ => none

/-! ## Idealized AEAD (external crate `xsalsa20poly1305`) -/

/-- Keystream byte `i` of the idealized stream cipher: a deterministic
byte-valued function of key, nonce and position. -/
def ksByte (key nonce : List Nat) (i : Nat) : Nat :=
  (key.foldl (fun a b => a * 131 + b) 7 +
    nonce.foldl (fun a b => a * 137 + b) 11 + i * 101) % 256

/-- Keystream xor starting at position `i`. -/
def xorStreamAux (key nonce : List Nat) : Nat → List Nat → List Nat
  | _, [] => []
  | i, b :: rest => (b ^^^ ksByte key nonce i) :: xorStreamAux key nonce (i + 1) rest

/-- Keystream xor of a whole message. -/
def xorStream (key nonce data : List Nat) : List Nat :=
  xorStreamAux key nonce 0 data

/-- Sixteen-byte authentication tag over key, nonce and ciphertext. -/
def aeadTag (key nonce ct : List Nat) : List Nat :=
  (List.range 16).map fun i =>
    (key.foldl (fun a b => a * 131 + b) 7 +
      nonce.foldl (fun a b => a * 137 + b) 11 +
      ct.foldl (fun a b => a * 149 + b) 13 + i * 103) % 256

/-- AEAD encryption: tag-prefixed keystream-xor ciphertext
(16 bytes of overhead, as the crate's `encrypt`). -/
def aeadEncrypt (key nonce pt : List Nat) : List Nat :=
  aeadTag key nonce (xorStream key nonce pt) ++ xorStream key nonce pt

/-- AEAD decryption: check length and tag, then undo the keystream
(`none` is the crate's `decrypt` error). -/
def aeadDecrypt (key nonce data : List Nat) : Option (List Nat) :=
  if data.length < 16 then none
  else if data.take 16 = aeadTag key nonce (data.drop 16) then
    some (xorStream key nonce (data.drop 16))
  else none

/-! ## Cipher (src/ciphers.rs) -/

/-- Outcome of a fallible Rust computation; `panic` embeds a reachable
`unwrap()` of a `None`/`Err` value. `Errors::new(msg)` is the message. -/
inductive RResult (α : Type) where
  | ok : α → RResult α
  | err : String → RResult α
  | panic : RResult α
deriving DecidableEq

/-- Sequencing of `RResult` computations (`?`-style propagation). -/
def RResult.andThen {α β : Type} : RResult α → (α → RResult β) → RResult β
  | .ok a, f => f a
  | .err e, _ => .err e
  | .panic, _ => .panic

/-- The `Cipher` struct: two optional 32-byte keys
(`XSalsa20Poly1305` instances are identified with their key bytes). -/
structure Cipher where
  master : Option (List Nat)
  web : Option (List Nat)
deriving DecidableEq

/-- Translation of `Cipher::complete_encryption` (lines 486-495):
append ciphertext to nonce and base64url-encode. -/
def complete_encryption (nonce : List Nat) (result : Option (List Nat)) :
    RResult (List Nat) :=
  match result with
  | some value => .ok (b64Encode (nonce ++ value))
  | none => .err "Encryption failed"

/-- Translation of `Cipher::encrypt_master` (lines 160-177). -/
def encrypt_master (c : Cipher) (nonce s : List Nat) : RResult (List Nat) :=
  match c.master with
  | none => .err "Cipher failed to initialize"
  | some key => complete_encryption nonce (some (aeadEncrypt key nonce s))

/-- Translation of `Cipher::encrypt_web` (lines 200-217). -/
def encrypt_web (c : Cipher) (nonce s : List Nat) : RResult (List Nat) :=
  match c.web with
  | none => .err "Cipher failed to initialize"
  | some key => complete_encryption nonce (some (aeadEncrypt key nonce s))

/-- Translation of `Cipher::encrypt_hash` (lines 122-137): caller-supplied
base64url key; `GenericArray::from_slice` panics off the 32-byte key size. -/
def encrypt_hash (nonce content hash : List Nat) : RResult (List Nat) :=
  match b64Decode hash with
  | none => .err "Unable to decode base64 encoding"
  | some hk =>
    if hk.length = 32 then complete_encryption nonce (some (aeadEncrypt hk nonce content))
    else .panic

/-- Translation of `Cipher::decrypt_master` (lines 382-412). The source
calls `self.master.as_ref().unwrap()` with no `None` check, so a missing
master key past the decode and length guards is a panic. -/
def decrypt_master (c : Cipher) (s : List Nat) : RResult (List Nat) :=
  match b64Decode s with
  | none => .err "Unable to decode base64 encoding"
  | some d =>
    if d.length < 25 then .err "Invalid hash length"
    else
      match c.master with
      | none => .panic
      | some key =>
        match aeadDecrypt key (d.take 24) (d.drop 24) with
        | none => .err "Unable to decrypt text"
        | some pt => .ok pt

/-- Translation of `Cipher::decrypt_web` (lines 432-462); same unchecked
`unwrap()` on the web key. -/
def decrypt_web (c : Cipher) (s : List Nat) : RResult (List Nat) :=
  match b64Decode s with
  | none => .err "Unable to decode base64 encoding"
  | some d =>
    if d.length < 25 then .err "Invalid hash length"
    else
      match c.web with
      | none => .panic
      | some key =>
        match aeadDecrypt key (d.take 24) (d.drop 24) with
        | none => .err "Unable to decrypt text"
        | some pt => .ok pt

/-- Translation of `Cipher::decrypt_hash` (lines 241-284): key material is
the base64url `hash` argument (configured keys unused);
`GenericArray::from_slice` panics off the 32-byte key size. -/
def decrypt_hash (content hash : List Nat) : RResult (List Nat) :=
  match b64Decode hash with
  | none => .err "Unable to decode base64 encoding"
  | some hk =>
    if hk.length = 32 then
      match b64Decode content with
      | none => .err "Unable to decrypt text"
      | some d =>
        if d.length ≤ 24 then .err "Invalid hash length"
        else
          match aeadDecrypt hk (d.take 24) (d.drop 24) with
          | none => .err "Unable to decrypt text"
          | some pt => .ok pt
    else .panic

/-- Translation of `Cipher::decrypt_deep_hash` (lines 315-362): unwrap the
master-encrypted key, decode it, re-encode, then `decrypt_hash`. The
source calls `self.master.as_ref().unwrap()` with no `None` check. -/
def decrypt_deep_hash (c : Cipher) (content hash : List Nat) : RResult (List Nat) :=
  match b64Decode hash with
  | none => .err "Unable to decode base64 encoding"
  | some h =>
    if h.length ≤ 24 then .err "Invalid hash length"
    else
      match c.master with
      | none => .panic
      | some key =>
        match aeadDecrypt key (h.take 24) (h.drop 24) with
        | none => .err "Unable to decrypt text"
        | some unsealed =>
          match b64Decode unsealed with
          | none => .err "Unable to decrypt text"
          | some k => decrypt_hash content (b64Encode k)

/-- Environment seen by `Cipher::new`: the `MASTER_KEY` and `WEB_KEY`
variables, as byte strings when set. -/
structure Env where
  master_key : Option (List Nat)
  web_key : Option (List Nat)

/-- Translation of `Cipher::new` (lines 54-98): fetch and decode both env
keys in order, then build both `XSalsa20Poly1305` instances
(`GenericArray::from_slice` panics off the 32-byte key size). -/
def Cipher.new (env : Env) : RResult Cipher :=
  match env.master_key with
  | none => .err "Master key is missing"
  | some mstr =>
    match b64Decode mstr with
    | none => .err "Invalid master key"
    | some master_key =>
      match env.web_key with
      | none => .err "Web key is missing"
      | some wstr =>
        match b64Decode wstr with
        | none => .err "Invalid web key"
        | some web_key =>
          if master_key.length = 32 then
            if web_key.length = 32 then
              .ok { master := some master_key, web := some web_key }
            else .panic
          else .panic

/-! ## Paseto (src/paseto.rs) -/

/-- The `Paseto` configuration struct (lines 11-19); signing keys are byte
lists, durations an `i32` magnitude with a unit-name string. -/
structure Paseto where
  app_name : String
  access_token_key_unit : Int
  access_token_key_time : String
  access_token_key_signing : List Nat
  refresh_token_key_unit : Int
  refresh_token_key_time : String
  refresh_token_key_signing : List Nat
deriving DecidableEq

/-- The unit-name match shared by the duration computations (`Minutes` /
`Hours` / `Days`, `Seconds` otherwise), in seconds. -/
def durationFor (time : String) (unit : Int) : Int :=
  if time = "Minutes" then 60 * unit
  else if time = "Hours" then 3600 * unit
  else if time = "Days" then 86400 * unit
  else unit

/-- Translation of `Paseto::get_access_token_expiry` (lines 563-587) over
an explicit current time in seconds. The source's default `expiry` is
`now + refresh_token_key_unit minutes`, and
`is_empty().then(..).map_or(expiry, ..)` selects it exactly when
`access_token_key_time` is non-empty. -/
def get_access_token_expiry (p : Paseto) (now : Int) : Int :=
  let expiry := now + 60 * p.refresh_token_key_unit
  match (if p.access_token_key_time = "" then some "Minutes" else none) with
  | none => expiry
  | some item => now + durationFor item p.access_token_key_unit

/-- Result of the external `paseto::tokens::validate_local_token`
(token, footer, key) call: a claims value of opaque type `J` or an error
whose message is what the source classifies on. -/
inductive Vtr (J : Type) where
  | ok : J → Vtr J
  | err : String → Vtr J

/-- Translation of `Paseto::validate_access_token` (lines 318-358). The
external validator, the `"data"` lookup and the serde deserialization into
the caller's claim shape are parameters (`validator`, `getData`,
`fromValue`). -/
def validate_access_token {J C : Type}
    (validator : String → String → List Nat → Vtr J)
    (getData : J → Option J) (fromValue : J → Option C)
    (p : Paseto) (token : String) : RResult C :=
  match validator token ("key-id:" ++ p.app_name) p.access_token_key_signing with
  | .err e =>
    if rustToLower e = "this token is expired (exp claim)." then
      .err "Your authentication token has expired"
    else .err "Invalid authentication token"
  | .ok v =>
    match getData v with
    | none => .err "Invalid authentication token"
    | some d =>
      match fromValue d with
      | none => .err "Invalid authentication token"
      | some c => .ok c

/-- Translation of `Paseto::validate_refresh_token` (lines 416-456):
identical branching against the refresh key, refresh-specific messages. -/
def validate_refresh_token {J C : Type}
    (validator : String → String → List Nat → Vtr J)
    (getData : J → Option J) (fromValue : J → Option C)
    (p : Paseto) (token : String) : RResult C :=
  match validator token ("key-id:" ++ p.app_name) p.refresh_token_key_signing with
  | .err e =>
    if rustToLower e = "this token is expired (exp claim)." then
      .err "Your refresh token has expired"
    else .err "Invalid refresh token"
  | .ok v =>
    match getData v with
    | none => .err "Invalid refresh token"
    | some d =>
      match fromValue d with
      | none => .err "Invalid refresh token"
      | some c => .ok c

/-- Translation of `Paseto::validate_web_token` (lines 514-541): a fresh
`Cipher::new()` from the environment on every call, then `decrypt_web`,
then serde (`fromBytes` parameter); `self` is never consulted. -/
def validate_web_token {C : Type} (env : Env) (fromBytes : List Nat → Option C)
    (token : List Nat) : RResult C :=
  match Cipher.new env with
  | .err _ => .err "Cipher library failed to initialize"
  | .panic => .panic
  | .ok cipher =>
    match decrypt_web cipher token with
    | .err _ => .err "Decryption failed"
    | .panic => .panic
    | .ok s =>
      match fromBytes s with
      | none => .err "Invalid authentication token"
      | some c => .ok c

/-- The `Token` aggregate (src/tokens.rs lines 9-16). -/
structure Token where
  access : Option (List Nat)
  refresh : Option (List Nat)
  web : Option (List Nat)
deriving DecidableEq

/-- ASCII whitespace trim on a byte list (`str::trim` at the byte level,
for `c.to_string().trim()` in `generate_tokens`). -/
def trimBytes (l : List Nat) : List Nat :=
  ((l.dropWhile (fun b => b = 32 || b = 9 || b = 10 || b = 13)).reverse.dropWhile
    (fun b => b = 32 || b = 9 || b = 10 || b = 13)).reverse

/-- Translation of `Paseto::generate_tokens` (lines 180-260). The two
external `PasetoBuilder` envelope constructions are parameters
(`accessBuild`, `refreshBuild`, `none` = builder error), `cStr` is the
serde-serialized claims string and `nonce` the web-encryption nonce. -/
def generate_tokens (env : Env) (nonce : List Nat)
    (accessBuild refreshBuild : Option (List Nat)) (cStr : List Nat) :
    RResult Token :=
  match accessBuild with
  | none => .err "Unable to generate access token"
  | some access_token =>
    match refreshBuild with
    | none => .err "Unable to generate refresh token"
    | some refresh_token =>
      match Cipher.new env with
      | .err _ => .err "Cipher library failed to initialize"
      | .panic => .panic
      | .ok cipher =>
        match encrypt_web cipher nonce (trimBytes cStr) with
        | .err _ => .err "Encryption failed"
        | .panic => .panic
        | .ok w =>
          .ok { access := some access_token, refresh := some refresh_token,
                web := some w }

/-! ## Guard (src/guards/middlewares.rs, src/guards/options.rs,
src/payloads.rs) -/

/-- The JSON response envelope `Payload` (src/payloads.rs lines 8-21);
`serde_json::Value` fields are `none` for `Null`. -/
structure Payload where
  code : Option Nat
  challenge : String
  message : String
  data : Option String
  error : String
  errors : Option String
deriving DecidableEq

/-- Default `Payload` (src/payloads.rs lines 24-35). -/
def payloadDefault : Payload :=
  { code := none, challenge := "", message := "", data := none,
    error := "", errors := none }

/-- An HTTP response as the guard produces it: a JSON body with a status
code, or the handlebars `not_found_middleware` HTML page. -/
inductive HttpResponse where
  | json : Nat → Payload → HttpResponse
  | htmlNotFound : HttpResponse
deriving DecidableEq

/-- Translation of `Payload::database_connection` (payloads.rs 261-269). -/
def database_connection : HttpResponse :=
  .json 400
    { payloadDefault with
      code := some 400
      error := "Unable to initialize database connection. Please check your server configuration" }

/-- Translation of `Payload::invalid_authentication_token`
(payloads.rs 324-332). -/
def invalid_authentication_token : HttpResponse :=
  .json 400
    { payloadDefault with
      code := some 400
      error := "Invalid authentication token" }

/-- The guard `Options` struct (src/guards/options.rs). -/
structure Options where
  token : String
  roles : Option (List String)
  json_response : Bool
  is_optional : Bool
  is_refresh_token : Bool
  is_web_token : Bool
deriving DecidableEq

/-- Opaque pooled database connection. -/
structure PgPooledConnection where
  u : Unit
deriving DecidableEq

/-- The `GuardMiddleware` policy (middlewares.rs lines 20-29), generic in
the claims type `T` like the source. -/
structure GuardMiddleware (T : Type) where
  roles : Option (List String)
  callback : Option (PgPooledConnection → Options → Option Paseto → Except String T)
  has_database : Option Bool
  json_response : Bool
  is_optional : Bool
  is_refresh_token : Bool
  is_web_token : Bool

/-- The request state the guard consults: method, registered app data
(handlebars, pool with its per-request acquisition result, paseto) and the
`Authorization` header. `dbPool = none` means no `Data<DBPool>` was
registered at all. -/
structure ServiceRequest where
  method : String
  hbs : Option Unit
  dbPool : Option (Except Unit PgPooledConnection)
  authorization : Option String
  paseto : Option Paseto

/-- Outcome of one guard decision: allow (with claims attached when the
callback ran), deny with a response, or a reachable panic. -/
inductive GuardOutcome (T : Type) where
  | allow : Option T → GuardOutcome T
  | deny : HttpResponse → GuardOutcome T
  | panic : GuardOutcome T
deriving DecidableEq

/-- Acquisition-failure test on the pool result. -/
def poolIsErr : Except Unit PgPooledConnection → Bool
  | .error _ => true
  | .ok _ => false

/-- Response shaping shared by the database-unavailable and
roles-without-database branches (middlewares.rs lines 69-72 and 102-105):
JSON `database_connection` when `json_response` is set or no handlebars
registry is present, else the HTML not-found page. -/
def errorShaping (json_response : Bool) (hbs : Option Unit) : HttpResponse :=
  if json_response || (json_response = false && hbs.isNone) then database_connection
  else .htmlNotFound

/-- Bearer extraction as the guard performs it (middlewares.rs lines
114-124): header value (absent or non-UTF-8 becomes `""`), trimmed, then
`strings::get_token`, with `None` collapsed to the empty token. -/
def extractToken (authorization : Option String) : String :=
  match get_token (rustTrim (match authorization with | none => "" | some h => h)) with
  | some t => t
  | none => ""

/-- Translation of `GuardMiddleware::call` (middlewares.rs lines 47-192):
the ordered per-request decision. `req.dbPool = none` reproduces the
`app_data().unwrap()` panic at line 66; a failed acquisition reaching
`pool.unwrap()` at line 127 is the other panic. -/
def guardCall {T : Type} (g : GuardMiddleware T) (req : ServiceRequest) :
    GuardOutcome T :=
  if req.method = "OPTIONS" then .allow none
  else
    match req.dbPool with
    | none => .panic
    | some pool =>
      if g.has_database = some true ∧ poolIsErr pool = true then
        .deny (errorShaping g.json_response req.hbs)
      else if g.has_database = some true ∧ poolIsErr pool = false ∧
          g.callback.isNone ∧ g.roles.isNone ∧
          g.is_refresh_token = false ∧ g.is_web_token = false then
        .allow none
      else
        let has_allowed_roles :=
          match g.roles with
          | some rs => rs.length > 0
          | none => false
        if has_allowed_roles = true ∧ (g.has_database = none ∨ g.has_database = some false) then
          .deny (errorShaping g.json_response req.hbs)
        else
          let token := extractToken req.authorization
          match pool with
          | .error _ => .panic
          | .ok conn =>
            let guard_options : Options :=
              { token := token, roles := g.roles,
                json_response := g.json_response, is_optional := g.is_optional,
                is_refresh_token := g.is_refresh_token,
                is_web_token := g.is_web_token }
            match g.callback with
            | some cb =>
              match cb conn guard_options req.paseto with
              | .ok claims => .allow (some claims)
              | .error e =>
                if rustContains e "expired" then
                  .deny (.json 401 { payloadDefault with code := some 401, error := e })
                else
                  .deny (.json 400 { payloadDefault with code := some 400, error := e })
            | none => .deny invalid_authentication_token

/-! ## Base64url correctness -/

theorem encTable_lt (n : Nat) : encTable n < 256 := by
  unfold encTable
  split <;> try omega
  split <;> try omega
  split <;> try omega
  split <;> omega

theorem dec_enc : ∀ n, n < 64 → decTable (encTable n) = some n := by
  decide

theorem b64Encode_lt (bs : List Nat) : ∀ x ∈ b64Encode bs, x < 256 := by
  induction bs using b64Encode.induct with
  | case1 => intro x hx; cases hx
  | case2 a =>
    intro x hx
    rcases List.mem_cons.1 hx with rfl | hx
    · exact encTable_lt _
    · rcases List.mem_cons.1 hx with rfl | hx
      · exact encTable_lt _
      · cases hx
  | case3 a b =>
    intro x hx
    rcases List.mem_cons.1 hx with rfl | hx
    · exact encTable_lt _
    · rcases List.mem_cons.1 hx with rfl | hx
      · exact encTable_lt _
      · rcases List.mem_cons.1 hx with rfl | hx
        · exact encTable_lt _
        · cases hx
  | case4 a b c rest ih =>
    intro x hx
    rcases List.mem_cons.1 hx with rfl | hx
    · exact encTable_lt _
    · rcases List.mem_cons.1 hx with rfl | hx
      · exact encTable_lt _
      · rcases List.mem_cons.1 hx with rfl | hx
        · exact encTable_lt _
        · rcases List.mem_cons.1 hx with rfl | hx
          · exact encTable_lt _
          · exact ih x hx

theorem b64_roundtrip (bs : List Nat) (h : ∀ b ∈ bs, b < 256) :
    b64Decode (b64Encode bs) = some bs := by
  induction bs using b64Encode.induct with
  | case1 => rfl
  | case2 a =>
    have ha : a < 256 := h a (by simp)
    simp only [b64Encode, b64Decode,
      dec_enc (a / 4) (by omega), dec_enc (a % 4 * 16) (by omega)]
    congr 2
    omega
  | case3 a b =>
    have ha : a < 256 := h a (by simp)
    have hb : b < 256 := h b (by simp)
    simp only [b64Encode, b64Decode, dec_enc (a / 4) (by omega),
      dec_enc (a % 4 * 16 + b / 16) (by omega), dec_enc (b % 16 * 4) (by omega)]
    congr 2
    · omega
    · congr 1
      omega
  | case4 a b c rest ih =>
    have ha : a < 256 := h a (by simp)
    have hb : b < 256 := h b (by simp)
    have hc : c < 256 := h c (by simp)
    have hrest : ∀ x ∈ rest, x < 256 := fun x hx => h x (by simp [hx])
    simp only [b64Encode, b64Decode, dec_enc (a / 4) (by omega),
      dec_enc (a % 4 * 16 + b / 16) (by omega),
      dec_enc (b % 16 * 4 + c / 64) (by omega), dec_enc (c % 64) (by omega),
      ih hrest]
    congr 2
    · omega
    · congr 1
      · omega
      · congr 1
        omega

/-! ## AEAD model correctness -/

theorem ksByte_lt (key nonce : List Nat) (i : Nat) : ksByte key nonce i < 256 :=
  Nat.mod_lt _ (by norm_num)

theorem xorStreamAux_length (key nonce : List Nat) :
    ∀ i l, (xorStreamAux key nonce i l).length = l.length := by
  intro i l
  induction l generalizing i with
  | nil => rfl
  | cons b rest ih => simp [xorStreamAux, ih]

theorem xorStreamAux_involutive (key nonce : List Nat) :
    ∀ i l, xorStreamAux key nonce i (xorStreamAux key nonce i l) = l := by
  intro i l
  induction l generalizing i with
  | nil => rfl
  | cons b rest ih =>
    simp only [xorStreamAux, ih, List.cons.injEq, and_true]
    rw [Nat.xor_assoc, Nat.xor_self, Nat.xor_zero]

theorem xorStreamAux_lt (key nonce : List Nat) :
    ∀ i l, (∀ b ∈ l, b < 256) → ∀ x ∈ xorStreamAux key nonce i l, x < 256 := by
  intro i l
  induction l generalizing i with
  | nil => intro _ x hx; cases hx
  | cons b rest ih =>
    intro hl x hx
    rcases List.mem_cons.1 hx with rfl | hx
    · have hb : b < 256 := hl b (by simp)
      have hk := ksByte_lt key nonce i
      have h2 : b ^^^ ksByte key nonce i < 2 ^ 8 :=
        Nat.xor_lt_two_pow (by omega) (by omega)
      omega
    · exact ih (i + 1) (fun y hy => hl y (by simp [hy])) x hx

theorem aeadTag_length (key nonce ct : List Nat) : (aeadTag key nonce ct).length = 16 := by
  simp [aeadTag]

theorem aeadTag_lt (key nonce ct : List Nat) : ∀ x ∈ aeadTag key nonce ct, x < 256 := by
  intro x hx
  simp only [aeadTag, List.mem_map] at hx
  obtain ⟨i, _, rfl⟩ := hx
  exact Nat.mod_lt _ (by norm_num)

theorem aeadEncrypt_length (key nonce pt : List Nat) :
    (aeadEncrypt key nonce pt).length = 16 + pt.length := by
  simp [aeadEncrypt, xorStream, aeadTag_length, xorStreamAux_length]

theorem aeadEncrypt_lt (key nonce pt : List Nat) (h : ∀ b ∈ pt, b < 256) :
    ∀ x ∈ aeadEncrypt key nonce pt, x < 256 := by
  intro x hx
  rcases List.mem_append.1 hx with hx | hx
  · exact aeadTag_lt key nonce _ x hx
  · exact xorStreamAux_lt key nonce 0 pt h x hx

theorem aead_roundtrip (key nonce pt : List Nat) :
    aeadDecrypt key nonce (aeadEncrypt key nonce pt) = some pt := by
  unfold aeadDecrypt aeadEncrypt
  rw [List.take_left' (aeadTag_length key nonce _),
    List.drop_left' (aeadTag_length key nonce _)]
  rw [if_neg (by simp [List.length_append, aeadTag_length]), if_pos rfl]
  simp only [xorStream, xorStreamAux_involutive]

/-! ## Cipher round trips -/

/-- Value extraction from an `RResult`, with a default. -/
def RResult.getD {α : Type} : RResult α → α → α
  | .ok a, _ => a
  | .err _, d => d
  | .panic, d => d

theorem wire_lt (key nonce pt : List Nat) (hnb : ∀ b ∈ nonce, b < 256)
    (hpb : ∀ b ∈ pt, b < 256) :
    ∀ b ∈ nonce ++ aeadEncrypt key nonce pt, b < 256 := fun b hb =>
  (List.mem_append.1 hb).elim (hnb b) (aeadEncrypt_lt key nonce pt hpb b)

theorem wire_length_not_lt (key nonce pt : List Nat) (hn : nonce.length = 24) :
    ¬ (nonce ++ aeadEncrypt key nonce pt).length < 25 := by
  simp only [List.length_append, aeadEncrypt_length, hn]
  omega

theorem decrypt_master_wire (c : Cipher) (key nonce pt : List Nat)
    (hm : c.master = some key) (hn : nonce.length = 24)
    (hnb : ∀ b ∈ nonce, b < 256) (hpb : ∀ b ∈ pt, b < 256) :
    decrypt_master c (b64Encode (nonce ++ aeadEncrypt key nonce pt)) = .ok pt := by
  simp only [decrypt_master, b64_roundtrip _ (wire_lt key nonce pt hnb hpb), hm]
  rw [if_neg (wire_length_not_lt key nonce pt hn), List.take_left' hn,
    List.drop_left' hn, aead_roundtrip]

theorem decrypt_web_wire (c : Cipher) (key nonce pt : List Nat)
    (hw : c.web = some key) (hn : nonce.length = 24)
    (hnb : ∀ b ∈ nonce, b < 256) (hpb : ∀ b ∈ pt, b < 256) :
    decrypt_web c (b64Encode (nonce ++ aeadEncrypt key nonce pt)) = .ok pt := by
  simp only [decrypt_web, b64_roundtrip _ (wire_lt key nonce pt hnb hpb), hw]
  rw [if_neg (wire_length_not_lt key nonce pt hn), List.take_left' hn,
    List.drop_left' hn, aead_roundtrip]

/-- C1: for every plaintext `P` (as UTF-8 bytes) and cipher with both keys
initialized, `decrypt_master (encrypt_master P) = P` and
`decrypt_web (encrypt_web P) = P`, for any freshly generated 24-byte
nonces. -/
theorem cipher_roundtrip_master_web (mkey wkey nonce1 nonce2 P : List Nat)
    (hn1 : nonce1.length = 24) (hb1 : ∀ b ∈ nonce1, b < 256)
    (hn2 : nonce2.length = 24) (hb2 : ∀ b ∈ nonce2, b < 256)
    (hP : ∀ b ∈ P, b < 256) :
    RResult.andThen (encrypt_master ⟨some mkey, some wkey⟩ nonce1 P)
        (decrypt_master ⟨some mkey, some wkey⟩) = .ok P ∧
    RResult.andThen (encrypt_web ⟨some mkey, some wkey⟩ nonce2 P)
        (decrypt_web ⟨some mkey, some wkey⟩) = .ok P := by
  constructor
  · simp only [encrypt_master, complete_encryption, RResult.andThen]
    exact decrypt_master_wire _ _ _ _ rfl hn1 hb1 hP
  · simp only [encrypt_web, complete_encryption, RResult.andThen]
    exact decrypt_web_wire _ _ _ _ rfl hn2 hb2 hP

/-- Witness for C1 at a concrete key pair, nonce pair and plaintext. -/
theorem cipher_roundtrip_master_web_witness :
    RResult.andThen
        (encrypt_master ⟨some (List.replicate 32 1), some (List.replicate 32 2)⟩
          (List.replicate 24 5) [104, 101, 108, 108, 111])
        (decrypt_master ⟨some (List.replicate 32 1), some (List.replicate 32 2)⟩) =
      .ok [104, 101, 108, 108, 111] ∧
    RResult.andThen
        (encrypt_web ⟨some (List.replicate 32 1), some (List.replicate 32 2)⟩
          (List.replicate 24 6) [104, 101, 108, 108, 111])
        (decrypt_web ⟨some (List.replicate 32 1), some (List.replicate 32 2)⟩) =
      .ok [104, 101, 108, 108, 111] :=
  cipher_roundtrip_master_web (List.replicate 32 1) (List.replicate 32 2)
    (List.replicate 24 5) (List.replicate 24 6) [104, 101, 108, 108, 111]
    (by decide) (by decide) (by decide) (by decide) (by decide)

/-- C2 counterexample: `decrypt_master` on a `Cipher` whose master key is
absent does not return an explicit error on a well-formed input — it
reaches the source's `self.master.as_ref().unwrap()` and panics. -/
theorem decrypt_master_missing_key_panics :
    decrypt_master ⟨none, none⟩ (b64Encode (List.replicate 25 0)) = .panic := by
  decide

/-- C2 amended: `encrypt_master` and `encrypt_web` fail explicitly (and
never panic) on a missing key, but `decrypt_master`, `decrypt_web` and
`decrypt_deep_hash` panic on a missing key whenever the input passes the
base64 decode and length guards (they fail explicitly only when those
guards fire first). -/
theorem cipher_missing_key_behaviour :
    (∀ (w : Option (List Nat)) (nonce P : List Nat),
      encrypt_master ⟨none, w⟩ nonce P = .err "Cipher failed to initialize") ∧
    (∀ (m : Option (List Nat)) (nonce P : List Nat),
      encrypt_web ⟨m, none⟩ nonce P = .err "Cipher failed to initialize") ∧
    (∀ (w : Option (List Nat)) (s d : List Nat),
      b64Decode s = some d → ¬ d.length < 25 → decrypt_master ⟨none, w⟩ s = .panic) ∧
    (∀ (m : Option (List Nat)) (s d : List Nat),
      b64Decode s = some d → ¬ d.length < 25 → decrypt_web ⟨m, none⟩ s = .panic) ∧
    (∀ (w : Option (List Nat)) (content s d : List Nat),
      b64Decode s = some d → ¬ d.length ≤ 24 →
        decrypt_deep_hash ⟨none, w⟩ content s = .panic) := by
  refine ⟨fun w nonce P => rfl, fun m nonce P => rfl, ?_, ?_, ?_⟩
  · intro w s d hd hlen
    simp only [decrypt_master, hd, if_neg hlen]
  · intro m s d hd hlen
    simp only [decrypt_web, hd, if_neg hlen]
  · intro w content s d hd hlen
    simp only [decrypt_deep_hash, hd, if_neg hlen]

/-- Witness for the amended C2 at concrete inputs. -/
theorem cipher_missing_key_behaviour_witness :
    encrypt_master ⟨none, none⟩ [] [] = .err "Cipher failed to initialize" ∧
    encrypt_web ⟨none, none⟩ [] [] = .err "Cipher failed to initialize" ∧
    decrypt_master ⟨none, some []⟩ (b64Encode (List.replicate 25 0)) = .panic ∧
    decrypt_web ⟨some [], none⟩ (b64Encode (List.replicate 25 0)) = .panic ∧
    decrypt_deep_hash ⟨none, none⟩ [] (b64Encode (List.replicate 25 0)) = .panic :=
  ⟨cipher_missing_key_behaviour.1 none [] [],
   cipher_missing_key_behaviour.2.1 none [] [],
   cipher_missing_key_behaviour.2.2.1 (some []) (b64Encode (List.replicate 25 0))
     (List.replicate 25 0) (by decide) (by decide),
   cipher_missing_key_behaviour.2.2.2.1 (some []) (b64Encode (List.replicate 25 0))
     (List.replicate 25 0) (by decide) (by decide),
   cipher_missing_key_behaviour.2.2.2.2 none [] (b64Encode (List.replicate 25 0))
     (List.replicate 25 0) (by decide) (by decide)⟩

/-- C8: with the master key initialized, `decrypt_deep_hash` applied to
`encrypt_hash msg K` and `encrypt_master K` recovers `msg`, for every
message and every fresh 32-byte key `K` presented as base64url text. -/
theorem deep_hash_composition (c : Cipher) (mkey K nonce1 nonce2 msg content wrapped : List Nat)
    (hm : c.master = some mkey) (hK : K.length = 32) (hKb : ∀ b ∈ K, b < 256)
    (hmsg : ∀ b ∈ msg, b < 256)
    (hn1 : nonce1.length = 24) (hb1 : ∀ b ∈ nonce1, b < 256)
    (hn2 : nonce2.length = 24) (hb2 : ∀ b ∈ nonce2, b < 256)
    (hc : encrypt_hash nonce1 msg (b64Encode K) = .ok content)
    (hw : encrypt_master c nonce2 (b64Encode K) = .ok wrapped) :
    decrypt_deep_hash c content wrapped = .ok msg := by
  have hKenc : b64Decode (b64Encode K) = some K := b64_roundtrip K hKb
  have hKenc_lt : ∀ b ∈ b64Encode K, b < 256 := b64Encode_lt K
  simp only [encrypt_hash, hKenc, if_pos hK, complete_encryption, RResult.ok.injEq] at hc
  simp only [encrypt_master, hm, complete_encryption, RResult.ok.injEq] at hw
  subst hc hw
  simp only [decrypt_deep_hash,
    b64_roundtrip _ (wire_lt mkey nonce2 (b64Encode K) hb2 hKenc_lt), hm]
  rw [if_neg (by have := wire_length_not_lt mkey nonce2 (b64Encode K) hn2; omega),
    List.take_left' hn2, List.drop_left' hn2, aead_roundtrip]
  simp only [hKenc]
  simp only [decrypt_hash, hKenc, if_pos hK,
    b64_roundtrip _ (wire_lt K nonce1 msg hb1 hmsg)]
  rw [if_neg (by have := wire_length_not_lt K nonce1 msg hn1; omega),
    List.take_left' hn1, List.drop_left' hn1, aead_roundtrip]

/-- Witness for C8 at a concrete master key, ephemeral key and message. -/
theorem deep_hash_composition_witness :
    decrypt_deep_hash ⟨some (List.replicate 32 1), none⟩
      (RResult.getD
        (encrypt_hash (List.replicate 24 2) [104, 105] (b64Encode (List.replicate 32 0))) [])
      (RResult.getD
        (encrypt_master ⟨some (List.replicate 32 1), none⟩ (List.replicate 24 3)
          (b64Encode (List.replicate 32 0))) []) = .ok [104, 105] :=
  deep_hash_composition ⟨some (List.replicate 32 1), none⟩ (List.replicate 32 1)
    (List.replicate 32 0) (List.replicate 24 2) (List.replicate 24 3) [104, 105] _ _
    rfl (by decide) (by decide) (by decide) (by decide) (by decide)
    (by decide) (by decide) (by decide) (by decide)

/-! ## Guard claims -/

/-- C3 (evaluation at the failing inputs): a non-OPTIONS request with no
database pool registered in app data hits the `app_data().unwrap()` at
middlewares.rs line 66 and panics; a registered pool whose acquisition
fails, under a policy with no database requirement, reaches
`pool.unwrap()` at line 127 and panics. -/
theorem guard_panics_on_pool_unwraps :
    guardCall (T := Unit)
      { roles := none, callback := none, has_database := none, json_response := true,
        is_optional := false, is_refresh_token := false, is_web_token := false }
      { method := "GET", hbs := none, dbPool := none, authorization := none,
        paseto := none } = .panic ∧
    guardCall (T := Unit)
      { roles := none, callback := none, has_database := none, json_response := true,
        is_optional := false, is_refresh_token := false, is_web_token := false }
      { method := "GET", hbs := none, dbPool := some (Except.error ()),
        authorization := none, paseto := none } = .panic := by
  constructor <;> decide

/-- C4: under a policy that requires a database and configures a non-empty
roles list, an unreachable database makes the guard answer with the
database-unavailable shaping of rule 2 — the JSON `database_connection`
payload whenever `json_response` is set — and never a role-related
message: the roles rule is not consulted. -/
theorem db_unavailable_precedes_roles {T : Type} (g : GuardMiddleware T)
    (req : ServiceRequest) (rs : List String)
    (hm : req.method ≠ "OPTIONS")
    (hp : req.dbPool = some (Except.error ()))
    (hd : g.has_database = some true)
    (hr : g.roles = some rs) (hne : rs ≠ []) :
    guardCall g req = .deny (errorShaping g.json_response req.hbs) ∧
    (g.json_response = true → guardCall g req = .deny database_connection) := by
  constructor
  · simp [guardCall, hm, hp, hd, poolIsErr]
  · intro hj
    simp [guardCall, hm, hp, hd, poolIsErr, errorShaping, hj]

/-- Witness for C4: concrete policy requiring a database with
`roles = ["Admin"]`, unreachable database, JSON response mode. -/
theorem db_unavailable_precedes_roles_witness :
    guardCall (T := Unit)
      { roles := some ["Admin"], callback := none, has_database := some true,
        json_response := true, is_optional := false, is_refresh_token := false,
        is_web_token := false }
      { method := "GET", hbs := none, dbPool := some (Except.error ()),
        authorization := none, paseto := none } = .deny database_connection :=
  (db_unavailable_precedes_roles _ _ ["Admin"] (by decide) rfl rfl rfl
    (by decide)).2 rfl

/-- C5: when the configured callback fails with a reason string, the guard
answers 401 with the reason as the error field if the reason contains the
case-sensitive substring "expired", and 400 with the reason otherwise;
both are JSON payload responses. -/
theorem callback_failure_classification {T : Type} (g : GuardMiddleware T)
    (req : ServiceRequest)
    (cb : PgPooledConnection → Options → Option Paseto → Except String T)
    (conn : PgPooledConnection) (reason : String)
    (hm : req.method ≠ "OPTIONS")
    (hp : req.dbPool = some (Except.ok conn))
    (hd : g.has_database = none)
    (hr : g.roles = none)
    (hc : g.callback = some cb)
    (he : cb conn
        { token := extractToken req.authorization, roles := g.roles,
          json_response := g.json_response, is_optional := g.is_optional,
          is_refresh_token := g.is_refresh_token, is_web_token := g.is_web_token }
        req.paseto = Except.error reason) :
    (rustContains reason "expired" = true →
      guardCall g req =
        .deny (.json 401 { payloadDefault with code := some 401, error := reason })) ∧
    (rustContains reason "expired" = false →
      guardCall g req =
        .deny (.json 400 { payloadDefault with code := some 400, error := reason })) := by
  rw [hr] at he
  constructor <;> intro hcond <;>
    simp [guardCall, hm, hp, hd, hr, hc, poolIsErr, he, hcond]

/-- Witness for C5: a concrete callback failing with reason
"token expired" yields the 401 JSON response carrying that reason. -/
theorem callback_failure_classification_witness :
    guardCall (T := Unit)
      { roles := none,
        callback := some (fun _ _ _ => Except.error "token expired"),
        has_database := none, json_response := true, is_optional := false,
        is_refresh_token := false, is_web_token := false }
      { method := "GET", hbs := none, dbPool := some (Except.ok ⟨()⟩),
        authorization := none, paseto := none } =
      .deny (.json 401 { payloadDefault with code := some 401, error := "token expired" }) :=
  (callback_failure_classification _ _ (fun _ _ _ => Except.error "token expired")
    ⟨()⟩ "token expired" (by decide) rfl rfl rfl rfl rfl).1 (by decide)

/-- C9: the guard's bearer extraction maps the header value
"Bearer   abc123  " to the token "abc123", and the wrong-scheme header
"Token abc123" to the empty token (since `get_token` finds no "Bearer"
occurrence and returns `None`). -/
theorem bearer_extraction_examples :
    extractToken (some "Bearer   abc123  ") = "abc123" ∧
    extractToken (some "Token abc123") = "" ∧
    get_token "Token abc123" = none := by
  refine ⟨?_, ?_, ?_⟩ <;> decide

/-! ## Paseto claims -/

/-- C6: access-token validation yields the expired-specific error exactly
when the external validator failed with a message that lowercases to
"this token is expired (exp claim)."; every other validator failure yields
the generic invalid error. Refresh-token validation branches identically
with refresh-specific wording. -/
theorem token_error_classification {J C : Type}
    (validator : String → String → List Nat → Vtr J)
    (getData : J → Option J) (fromValue : J → Option C)
    (p : Paseto) (token : String) :
    (validate_access_token validator getData fromValue p token =
        .err "Your authentication token has expired" ↔
      ∃ e, validator token ("key-id:" ++ p.app_name) p.access_token_key_signing = .err e ∧
        rustToLower e = "this token is expired (exp claim).") ∧
    (∀ e, validator token ("key-id:" ++ p.app_name) p.access_token_key_signing = .err e →
      rustToLower e ≠ "this token is expired (exp claim)." →
      validate_access_token validator getData fromValue p token =
        .err "Invalid authentication token") ∧
    (validate_refresh_token validator getData fromValue p token =
        .err "Your refresh token has expired" ↔
      ∃ e, validator token ("key-id:" ++ p.app_name) p.refresh_token_key_signing = .err e ∧
        rustToLower e = "this token is expired (exp claim).") ∧
    (∀ e, validator token ("key-id:" ++ p.app_name) p.refresh_token_key_signing = .err e →
      rustToLower e ≠ "this token is expired (exp claim)." →
      validate_refresh_token validator getData fromValue p token =
        .err "Invalid refresh token") := by
  refine ⟨?_, ?_, ?_, ?_⟩
  · unfold validate_access_token
    cases hv : validator token ("key-id:" ++ p.app_name) p.access_token_key_signing with
    | ok v =>
      cases hg : getData v with
      | none => simp [hg]
      | some d => cases hf : fromValue d with
        | none => simp [hg, hf]
        | some c => simp [hg, hf]
    | err e =>
      by_cases hcond : rustToLower e = "this token is expired (exp claim)."
      · simp [hcond]
      · simp [hcond]
  · intro e hv hcond
    unfold validate_access_token
    rw [hv]
    simp [hcond]
  · unfold validate_refresh_token
    cases hv : validator token ("key-id:" ++ p.app_name) p.refresh_token_key_signing with
    | ok v =>
      cases hg : getData v with
      | none => simp [hg]
      | some d => cases hf : fromValue d with
        | none => simp [hg, hf]
        | some c => simp [hg, hf]
    | err e =>
      by_cases hcond : rustToLower e = "this token is expired (exp claim)."
      · simp [hcond]
      · simp [hcond]
  · intro e hv hcond
    unfold validate_refresh_token
    rw [hv]
    simp [hcond]

/-- Witness for C6: a validator failing with the lowercase-equal expired
message yields the expired error; one failing with another message yields
the invalid error. -/
theorem token_error_classification_witness :
    validate_access_token (J := Unit) (C := Unit)
      (fun _ _ _ => Vtr.err "THIS token is expired (exp claim).") (fun v => some v)
      (fun _ => some ())
      { app_name := "A", access_token_key_unit := 0, access_token_key_time := "",
        access_token_key_signing := [], refresh_token_key_unit := 0,
        refresh_token_key_time := "", refresh_token_key_signing := [] } "tok" =
      .err "Your authentication token has expired" ∧
    validate_refresh_token (J := Unit) (C := Unit)
      (fun _ _ _ => Vtr.err "boom") (fun v => some v) (fun _ => some ())
      { app_name := "A", access_token_key_unit := 0, access_token_key_time := "",
        access_token_key_signing := [], refresh_token_key_unit := 0,
        refresh_token_key_time := "", refresh_token_key_signing := [] } "tok" =
      .err "Invalid refresh token" :=
  ⟨(token_error_classification (fun _ _ _ => Vtr.err "THIS token is expired (exp claim).")
      (fun v => some v) (fun _ => some ()) _ "tok").1.2
      ⟨"THIS token is expired (exp claim).", rfl, by decide⟩,
   (token_error_classification (fun _ _ _ => Vtr.err "boom")
      (fun v => some v) (fun _ => some ()) _ "tok").2.2.2 "boom" rfl (by decide)⟩

/-- C7 (evaluation at the failing input): with
`access_token_key_unit = 15`, `access_token_key_time = "Days"` and
`refresh_token_key_unit = 30`, `get_access_token_expiry` returns
now + 1800 seconds (thirty *minutes* from the *refresh* unit), not the
now + 15 days = now + 1296000 seconds the specification describes. -/
theorem access_expiry_ignores_configured_unit :
    get_access_token_expiry
      { app_name := "A", access_token_key_unit := 15, access_token_key_time := "Days",
        access_token_key_signing := [], refresh_token_key_unit := 30,
        refresh_token_key_time := "Days", refresh_token_key_signing := [] } 0 = 1800 ∧
    (1800 : Int) ≠ 15 * 86400 := by
  constructor <;> decide

/-- An environment with a missing or undecodable key makes `Cipher::new`
return an explicit error. -/
theorem cipherNew_err_of_bad (env : Env)
    (hbad : env.master_key = none ∨
      (∃ m, env.master_key = some m ∧ b64Decode m = none) ∨
      env.web_key = none ∨
      (∃ w, env.web_key = some w ∧ b64Decode w = none)) :
    ∃ msg, Cipher.new env = .err msg := by
  rcases hbad with hm | ⟨m, hm, hdm⟩ | hw | ⟨w, hw, hdw⟩
  · exact ⟨"Master key is missing", by simp [Cipher.new, hm]⟩
  · exact ⟨"Invalid master key", by simp [Cipher.new, hm, hdm]⟩
  · cases hmk : env.master_key with
    | none => exact ⟨"Master key is missing", by simp [Cipher.new, hmk]⟩
    | some m =>
      cases hdm : b64Decode m with
      | none => exact ⟨"Invalid master key", by simp [Cipher.new, hmk, hdm]⟩
      | some mk => exact ⟨"Web key is missing", by simp [Cipher.new, hmk, hdm, hw]⟩
  · cases hmk : env.master_key with
    | none => exact ⟨"Master key is missing", by simp [Cipher.new, hmk]⟩
    | some m =>
      cases hdm : b64Decode m with
      | none => exact ⟨"Invalid master key", by simp [Cipher.new, hmk, hdm]⟩
      | some mk => exact ⟨"Invalid web key", by simp [Cipher.new, hmk, hdm, hw, hdw]⟩

/-- C10: `validate_web_token` rebuilds the cipher from the environment on
every call and fails with the cipher-initialization error whenever either
key variable is missing or fails to decode — in particular when only
`MASTER_KEY` is bad while the web key is fine — and `generate_tokens`
shares this behaviour past its two envelope builds. -/
theorem web_token_requires_full_cipher_env {C : Type} (env : Env)
    (hbad : env.master_key = none ∨
      (∃ m, env.master_key = some m ∧ b64Decode m = none) ∨
      env.web_key = none ∨
      (∃ w, env.web_key = some w ∧ b64Decode w = none)) :
    (∀ (fromBytes : List Nat → Option C) (token : List Nat),
      validate_web_token env fromBytes token =
        .err "Cipher library failed to initialize") ∧
    (∀ (nonce a r cStr : List Nat),
      generate_tokens env nonce (some a) (some r) cStr =
        .err "Cipher library failed to initialize") := by
  obtain ⟨msg, hmsg⟩ := cipherNew_err_of_bad env hbad
  constructor
  · intro fromBytes token
    simp [validate_web_token, hmsg]
  · intro nonce a r cStr
    simp [generate_tokens, hmsg]

/-- Witness for C10: `MASTER_KEY` absent while `WEB_KEY` is a valid
base64url 32-byte key still fails web-token validation and token
generation with the cipher-initialization error. -/
theorem web_token_requires_full_cipher_env_witness :
    validate_web_token (C := Unit)
      { master_key := none, web_key := some (b64Encode (List.replicate 32 0)) }
      (fun _ => some ()) [] = .err "Cipher library failed to initialize" ∧
    generate_tokens
      { master_key := none, web_key := some (b64Encode (List.replicate 32 0)) }
      [] (some []) (some []) [] = .err "Cipher library failed to initialize" :=
  ⟨(web_token_requires_full_cipher_env _ (Or.inl rfl)).1 (fun _ => some ()) [],
   (web_token_requires_full_cipher_env (C := Unit) _ (Or.inl rfl)).2 [] [] [] []⟩

end Glabs
